import Mathlib

/-!
Verification development for the AVL feed-synthesis program
(`fixed_avl_system.py`).  The Python source is shallowly embedded below:
floats are idealised as rationals (and as reals where trigonometry is
involved), dictionaries become association lists or `String`-indexed
partial maps, and code that can raise `ValueError` returns `Except Unit`
or `Option` with the error constructor standing for an escaping
exception.
-/

namespace AVLSystem

/-- A Python scalar value as it appears in a parsed tabular row or a JSON
object.  `num q` is a numeric value (a Python int or float, idealised as a
rational); `txt s ai af` is a string `s` tagged with the outcome of
Python's `int(s)` conversion (`ai`) and `float(s)` conversion (`af`),
where `none` means that conversion raises `ValueError`. -/
inductive GVal where
  | num (q : ℚ)
  | txt (s : String) (ai : Option ℤ) (af : Option ℚ)
deriving DecidableEq

/-- Python `int()` applied to a number truncates toward zero. -/
def ratTrunc (q : ℚ) : ℤ := if 0 ≤ q then ⌊q⌋ else ⌈q⌉

/-- Python `int(v)`: truncation for numbers, integer-literal parse (which
may raise) for strings. -/
def pyInt : GVal → Except Unit ℤ
  | .num q => .ok (ratTrunc q)
  | .txt _ ai _ => match ai with | some n => .ok n | none => .error ()

/-- Python `float(v)`: identity for numbers, float parse (which may
raise) for strings. -/
def pyFloat : GVal → Except Unit ℚ
  | .num q => .ok q
  | .txt _ _ af => match af with | some q => .ok q | none => .error ()

/-- Python `str(v)`. -/
def pyStr : GVal → String
  | .num q => toString q
  | .txt s _ _ => s

/-- Python `str(x)` where `x` may be `None` (a key fetched with `.get`
and absent); `str(None)` is the string `"None"`. -/
def pyStrOpt : Option GVal → String
  | none => "None"
  | some v => pyStr v

/-- Python truthiness of a value (`if v:`): numeric zero and the empty
string are falsy. -/
def pyTruthy : GVal → Bool
  | .num q => q != 0
  | .txt s _ _ => s != ""

/-- One raw tabular row, i.e. one Python dict from column name to value
as produced by `DataFrame.to_dict('records')`. -/
abbrev RawRow := List (String × GVal)

/-- `row.get(k, d)`. -/
def dget (row : RawRow) (k : String) (d : GVal) : GVal :=
  (List.lookup k row).getD d

/-- The empty-string default used throughout `process_gtfs_data`
(`row.get(k, '')`). -/
def emptyG : GVal := .txt "" none none

/-- `int(row.get(k, 0))`: default 0 when the key is missing, otherwise
Python `int()` of the stored value (which may raise). -/
def pyIntField (row : RawRow) (k : String) : Except Unit ℤ :=
  match List.lookup k row with
  | none => .ok 0
  | some v => pyInt v

/-- `float(row.get(k, 0.0))`. -/
def pyFloatField (row : RawRow) (k : String) : Except Unit ℚ :=
  match List.lookup k row with
  | none => .ok 0
  | some v => pyFloat v

/-- A Python dict keyed by strings, as a partial map. -/
def StrMap (α : Type) := String → Option α

/-- Dict assignment `m[k] = v`. -/
def mapSet {α : Type} (m : StrMap α) (k : String) (v : α) : StrMap α :=
  fun q => if q = k then some v else m q

/-- The empty dict. -/
def mapEmpty {α : Type} : StrMap α := fun _ => none

/-- The processed record for one route (`process_gtfs_data`, routes
section). -/
structure RouteRec where
  route_id : String
  route_name : GVal
  route_type : GVal
  route_color : GVal
  route_text_color : GVal
deriving DecidableEq

/-- The processed record for one trip. -/
structure TripRec where
  trip_id : String
  route_id : String
  service_id : GVal
  direction_id : ℤ
  shape_id : GVal
  wheelchair_accessible : GVal
deriving DecidableEq

/-- The processed record for one stop. -/
structure StopRec where
  stop_id : String
  stop_name : GVal
  stop_lat : ℚ
  stop_lon : ℚ
  stop_code : GVal
  stop_desc : GVal
deriving DecidableEq

/-- One entry of a per-trip stop sequence. -/
structure SeqEntry where
  stop_sequence : ℤ
  stop_id : String
  arrival_time : GVal
  departure_time : GVal
  stop_headsign : GVal
  pickup_type : GVal
  drop_off_type : GVal
deriving DecidableEq

/-- An alert input object, as consumed by `create_service_alert`. -/
structure AlertInput where
  id : Option String
  header : Option String
  description : Option String
  duration : Option ℤ
  affected_entities : Option (List String)
  cause : Option ℤ
  effect : Option ℤ
deriving DecidableEq

/-- The structure returned by `process_gtfs_data`: a dict with exactly the
keys routes, trips, stops and stop_sequences.  The `alerts` field models
the presence of an `'alerts'` key in that dict (checked by
`process_data`); `process_gtfs_data` never creates it. -/
structure Processed where
  routes : StrMap RouteRec
  trips : StrMap TripRec
  stops : StrMap StopRec
  stop_sequences : StrMap (List SeqEntry)
  alerts : Option (List AlertInput)

/-- The raw tables handed to `process_gtfs_data`: any of the five files
may be absent from the fetched archive. -/
structure RawGtfs where
  routes : Option (List RawRow)
  trips : Option (List RawRow)
  stops : Option (List RawRow)
  stop_times : Option (List RawRow)
  calendar : Option (List RawRow)

/-- Processing of one routes.txt row (overwrite on a duplicate id). -/
def addRouteRow (m : StrMap RouteRec) (row : RawRow) : StrMap RouteRec :=
  let rid := pyStr (dget row "route_id" emptyG)
  mapSet m rid
    { route_id := rid
      route_name := dget row "route_long_name" emptyG
      route_type := dget row "route_type" emptyG
      route_color := dget row "route_color" emptyG
      route_text_color := dget row "route_text_color" emptyG }

/-- Processing of one trips.txt row; `int()` on direction_id may raise. -/
def addTripRow (m : StrMap TripRec) (row : RawRow) :
    Except Unit (StrMap TripRec) := do
  let tid := pyStr (dget row "trip_id" emptyG)
  let rid := pyStr (dget row "route_id" emptyG)
  let dir ← pyIntField row "direction_id"
  pure (mapSet m tid
    { trip_id := tid
      route_id := rid
      service_id := dget row "service_id" emptyG
      direction_id := dir
      shape_id := dget row "shape_id" emptyG
      wheelchair_accessible := dget row "wheelchair_accessible" emptyG })

/-- Processing of one stops.txt row; `float()` on the coordinates may
raise. -/
def addStopRow (m : StrMap StopRec) (row : RawRow) :
    Except Unit (StrMap StopRec) := do
  let sid := pyStr (dget row "stop_id" emptyG)
  let lat ← pyFloatField row "stop_lat"
  let lon ← pyFloatField row "stop_lon"
  pure (mapSet m sid
    { stop_id := sid
      stop_name := dget row "stop_name" emptyG
      stop_lat := lat
      stop_lon := lon
      stop_code := dget row "stop_code" emptyG
      stop_desc := dget row "stop_desc" emptyG })

/-- Processing of one stop_times.txt row: initialise the trip's list when
the key is new and append the entry; `int()` on stop_sequence may
raise. -/
def addStopTimeRow (m : StrMap (List SeqEntry)) (row : RawRow) :
    Except Unit (StrMap (List SeqEntry)) := do
  let tid := pyStr (dget row "trip_id" emptyG)
  let sid := pyStr (dget row "stop_id" emptyG)
  let seq ← pyIntField row "stop_sequence"
  let entry : SeqEntry :=
    { stop_sequence := seq
      stop_id := sid
      arrival_time := dget row "arrival_time" emptyG
      departure_time := dget row "departure_time" emptyG
      stop_headsign := dget row "stop_headsign" emptyG
      pickup_type := dget row "pickup_type" emptyG
      drop_off_type := dget row "drop_off_type" emptyG }
  pure (mapSet m tid ((m tid).getD [] ++ [entry]))

/-- The ordering key of the per-trip sort
(`sort(key=lambda x: x['stop_sequence'])`). -/
def seqLe (a b : SeqEntry) : Prop := a.stop_sequence ≤ b.stop_sequence

instance : DecidableRel seqLe := fun a b => Int.decLe _ _

instance : IsTotal SeqEntry seqLe := ⟨fun a b => Int.le_total _ _⟩

instance : IsTrans SeqEntry seqLe := ⟨fun _ _ _ h h' => le_trans h h'⟩

/-- Python `list.sort` is a stable comparison sort; insertion sort is the
extensionally equal stable sort used for the embedding. -/
def sortEntries (l : List SeqEntry) : List SeqEntry := List.insertionSort seqLe l

/-- The routes section of `process_gtfs_data`. -/
def processRoutes : Option (List RawRow) → StrMap RouteRec
  | none => mapEmpty
  | some rows => rows.foldl addRouteRow mapEmpty

/-- The trips section of `process_gtfs_data`. -/
def processTrips : Option (List RawRow) → Except Unit (StrMap TripRec)
  | none => .ok mapEmpty
  | some rows => rows.foldlM addTripRow mapEmpty

/-- The stops section of `process_gtfs_data`. -/
def processStops : Option (List RawRow) → Except Unit (StrMap StopRec)
  | none => .ok mapEmpty
  | some rows => rows.foldlM addStopRow mapEmpty

/-- The stop_times section of `process_gtfs_data`, before sorting. -/
def processStopTimes : Option (List RawRow) →
    Except Unit (StrMap (List SeqEntry))
  | none => .ok mapEmpty
  | some rows => rows.foldlM addStopTimeRow mapEmpty

/-- `process_gtfs_data` (lines 154-226): build the four sub-maps in
source order, then sort every stop sequence by its sequence number.  A
`ValueError` escaping a row aborts the whole build (it is caught by
`fetch_gtfs_static`, which then returns `None`). -/
def process_gtfs_data (g : RawGtfs) : Except Unit Processed := do
  let routes := processRoutes g.routes
  let trips ← processTrips g.trips
  let stops ← processStops g.stops
  let seqs ← processStopTimes g.stop_times
  pure { routes := routes
         trips := trips
         stops := stops
         stop_sequences := fun tid => (seqs tid).map sortEntries
         alerts := none }

/-- One joined record returned by `get_trip_stops`. -/
structure TripStop where
  stop_sequence : ℤ
  stop_id : String
  stop_name : GVal
  arrival_time : GVal
  departure_time : GVal
deriving DecidableEq

/-- `get_trip_stops` (lines 228-244): join the trip's sequence entries to
the stop records, skipping entries whose stop is unknown; an unknown
trip_id yields the empty list. -/
def get_trip_stops (trip_id : String) (gtfs_data : Processed) : List TripStop :=
  match gtfs_data.stop_sequences trip_id with
  | some entries =>
      entries.foldl (fun stops e =>
        match gtfs_data.stops e.stop_id with
        | some st => stops ++
            [{ stop_sequence := e.stop_sequence
               stop_id := e.stop_id
               stop_name := st.stop_name
               arrival_time := e.arrival_time
               departure_time := e.departure_time }]
        | none => stops) []
  | none => []

/-- Python string comparison: lexicographic on code points. -/
def charsLt : List Char → List Char → Bool
  | [], [] => false
  | [], _ :: _ => true
  | _ :: _, [] => false
  | a :: as, b :: bs =>
      if a.val < b.val then true
      else if b.val < a.val then false
      else charsLt as bs

/-- Python `a <= b` on strings. -/
def pyStrLe (a b : String) : Bool := !(charsLt b.data a.data)

/-- One trip of a route's configuration (config.json). -/
structure TripConfig where
  trip_id : String
  direction_id : ℤ
  start_time : String
deriving DecidableEq

/-- The trip-selection loop of `process_data` (lines 519-526): remember
the last trip whose start_time compares `<=` the current time string and
break at the first trip whose start_time compares `>`. -/
def selectTripLoop (now : String) :
    List TripConfig → Option TripConfig → Option TripConfig
  | [], acc => acc
  | t :: ts, acc =>
      if pyStrLe t.start_time now then selectTripLoop now ts (some t) else acc

/-- Trip selection in `process_data` (lines 519-541): the loop above,
falling back to the first configured trip, and failing (`none`, the
cycle returns) when the trip list is empty. -/
def selectTrip (trips : List TripConfig) (now : String) : Option TripConfig :=
  match selectTripLoop now trips none with
  | some t => some t
  | none => trips.head?

/-- TripSelector as the specification words it: the last trip whose
start_time <= now among the contiguous prefix scanned before the first
trip with start_time > now; `trips[0]` when no scanned trip satisfies the
predicate and the list is non-empty; `none` on an empty list. -/
def tripSelectorSpec (trips : List TripConfig) (now : String) : Option TripConfig :=
  match (trips.takeWhile fun t => pyStrLe t.start_time now).getLast? with
  | some t => some t
  | none => trips.head?

/-- Python `math.radians`. -/
noncomputable def radians (x : ℝ) : ℝ := x * (Real.pi / 180)

/-- Python `math.degrees`. -/
noncomputable def degreesOf (x : ℝ) : ℝ := x * (180 / Real.pi)

/-- Python `math.atan2`, idealised over the reals; `atan2 0 0 = 0` as for
positive float zeros. -/
noncomputable def atan2 (y x : ℝ) : ℝ :=
  if 0 < x then Real.arctan (y / x)
  else if x < 0 then
    (if 0 ≤ y then Real.arctan (y / x) + Real.pi
     else Real.arctan (y / x) - Real.pi)
  else if 0 < y then Real.pi / 2
  else if y < 0 then -(Real.pi / 2)
  else 0

/-- Python's `%` on floats: the result carries the divisor's sign; for a
positive divisor `b` it is `a - b * floor (a / b)`, in `[0, b)`. -/
noncomputable def pymod (a b : ℝ) : ℝ := a - b * ⌊a / b⌋

/-- `calculate_bearing` (lines 246-261): the great-circle initial-bearing
formula, normalised into `[0, 360)`. -/
noncomputable def calculate_bearing (lat1 lon1 lat2 lon2 : ℝ) : ℝ :=
  let lat1r := radians lat1
  let lon1r := radians lon1
  let lat2r := radians lat2
  let lon2r := radians lon2
  let dlon := lon2r - lon1r
  let y := Real.sin dlon * Real.cos lat2r
  let x := Real.cos lat1r * Real.sin lat2r -
    Real.sin lat1r * Real.cos lat2r * Real.cos dlon
  pymod (degreesOf (atan2 y x) + 360) 360

/-- One stored previous fix (`self.previous_positions[device_id]`). -/
structure PrevPos where
  latitude : ℚ
  longitude : ℚ
  timestamp : ℚ
deriving DecidableEq

/-- The per-device previous-position table. -/
abbrev PrevTable := StrMap PrevPos

/-- `float(gps_data.get(k, 0.0))` on a JSON object field: `none` means
the conversion raised. -/
def pyFloatOptField (v : Option GVal) : Option ℚ :=
  match v with
  | none => some 0
  | some g => (pyFloat g).toOption

/-- `int(gps_data.get(k, 0))` on a JSON object field. -/
def pyIntOptField (v : Option GVal) : Except Unit ℤ :=
  match v with
  | none => .ok 0
  | some g => pyInt g

/-- Lines 316-328: `gps_data.get('bearing')`, then `float()` with its
`ValueError` caught and replaced by `0.0`; an absent key also yields
`0.0`. -/
def bearingFallback (v : Option GVal) : ℚ :=
  match v with
  | none => 0
  | some g => ((pyFloat g).toOption).getD 0

/-- The position/bearing/state block of `create_vehicle_position`
(lines 288-341), for the fix's device.  `prev` is the stored entry for
the device, `latV lonV brgV` the raw JSON fields, `t` the value of
`time.time()`.  Returns the emitted `(latitude, longitude, bearing)`
triple and the entry stored afterwards; when a `ValueError` escapes the
block, the three position fields are zeroed (lines 337-341) and the
stored entry is left as it was. -/
noncomputable def createPositionFields (prev : Option PrevPos)
    (latV lonV brgV : Option GVal) (t : ℚ) : (ℚ × ℚ × ℝ) × Option PrevPos :=
  match pyFloatOptField latV, pyFloatOptField lonV with
  | some clat, some clon =>
    (match prev with
     | some p =>
       if clat ≠ 0 ∧ clon ≠ 0 ∧ p.latitude ≠ 0 ∧ p.longitude ≠ 0 then
         ((clat, clon,
            calculate_bearing (p.latitude : ℝ) (p.longitude : ℝ)
              (clat : ℝ) (clon : ℝ)),
          some { latitude := clat, longitude := clon, timestamp := t })
       else
         match pyFloatOptField brgV with
         | some b =>
             ((clat, clon, (b : ℝ)),
              some { latitude := clat, longitude := clon, timestamp := t })
         | none => ((0, 0, 0), prev)
     | none =>
       ((clat, clon, (bearingFallback brgV : ℝ)),
        some { latitude := clat, longitude := clon, timestamp := t }))
  | _, _ => ((0, 0, 0), prev)

/-- The feed header common to the three builders. -/
structure FeedHeader where
  gtfs_realtime_version : String
  timestamp : ℤ
deriving DecidableEq

/-- The vehicle-position payload of a feed entity. -/
structure VehiclePositionMsg where
  trip_trip_id : String
  trip_route_id : String
  trip_direction_id : ℤ
  trip_start_date : String
  pos_latitude : ℚ
  pos_longitude : ℚ
  pos_bearing : ℝ
  vehicle_id : String
  vehicle_label : String
  timestamp : ℤ

/-- One stop_time_update of a trip update. -/
structure StopTimeUpdate where
  stop_sequence : ℤ
  stop_id : String
  arrival : Option ℤ
  departure : Option ℤ
  schedule_relationship : ℤ
deriving DecidableEq

/-- The trip-update payload of a feed entity. -/
structure TripUpdateMsg where
  trip_trip_id : String
  trip_route_id : String
  trip_direction_id : ℤ
  trip_start_time : String
  trip_start_date : String
  vehicle_id : String
  vehicle_label : String
  timestamp : ℤ
  stop_time_update : List StopTimeUpdate
deriving DecidableEq

/-- The alert payload of a feed entity. -/
structure AlertMsg where
  header_text : List String
  description_text : List String
  active_period : List (ℤ × ℤ)
  informed_entity : List String
  cause : ℤ
  effect : ℤ
deriving DecidableEq

/-- The oneof payload of a feed entity. -/
inductive EntityPayload where
  | vehicle (v : VehiclePositionMsg)
  | trip_update (t : TripUpdateMsg)
  | alert (a : AlertMsg)

/-- One feed entity. -/
structure FeedEntity where
  id : String
  payload : EntityPayload

/-- One wire message: a header plus its entities. -/
structure FeedMessage where
  header : FeedHeader
  entity : List FeedEntity

/-- The fetched GPS object, a JSON dict with every field optional. -/
structure GpsData where
  device_id : Option GVal
  label : Option GVal
  trip_id : Option GVal
  route_id : Option GVal
  direction_id : Option GVal
  latitude : Option GVal
  longitude : Option GVal
  bearing : Option GVal

/-- `create_vehicle_position` (lines 263-350).  `nowInt` is
`int(time.time())`, `nowQ` is `time.time()`, `today` is the current
date as YYYYMMDD.  `none` models the uncaught `ValueError` of
`int(gps_data.get('direction_id', 0))` at line 281; otherwise the built
message and the updated previous-position table are returned. -/
noncomputable def create_vehicle_position (gps : GpsData) (tbl : PrevTable)
    (nowInt : ℤ) (nowQ : ℚ) (today : String) :
    Option (FeedMessage × PrevTable) :=
  match pyIntOptField gps.direction_id with
  | .error _ => none
  | .ok dir =>
    let did := pyStrOpt gps.device_id
    let res := createPositionFields (tbl did) gps.latitude gps.longitude
      gps.bearing nowQ
    some
      ({ header := { gtfs_realtime_version := "2.0", timestamp := nowInt }
         entity := [{ id := did
                      payload := .vehicle
                        { trip_trip_id := pyStrOpt gps.trip_id
                          trip_route_id := pyStrOpt gps.route_id
                          trip_direction_id := dir
                          trip_start_date := today
                          pos_latitude := res.1.1
                          pos_longitude := res.1.2.1
                          pos_bearing := res.1.2.2
                          vehicle_id := did
                          vehicle_label := pyStrOpt (gps.label <|> gps.device_id)
                          timestamp := nowInt } }] },
       fun k => if k = did then res.2 else tbl k)

/-- Split a character list at every colon (code point 58). -/
def splitColon : List Char → List (List Char)
  | [] => [[]]
  | c :: cs =>
    if c.toNat = 58 then [] :: splitColon cs
    else
      match splitColon cs with
      | [] => [[c]]
      | g :: gs => (c :: g) :: gs

/-- Whether a character is an ASCII digit. -/
def digitB (c : Char) : Bool := decide (48 ≤ c.toNat) && decide (c.toNat ≤ 57)

/-- Digit run acceptable to a strptime two-digit field: one or two
digits. -/
def twoDigits (l : List Char) : Bool :=
  decide (0 < l.length) && decide (l.length ≤ 2) && l.all digitB

/-- Decimal value of a digit run. -/
def digitsVal (l : List Char) : ℕ := l.foldl (fun n c => 10 * n + (c.toNat - 48)) 0

/-- `datetime.strptime` of the time part of `"%Y%m%d %H:%M:%S"` (the
date part, rendered by the program itself, always parses): hours 0-23,
minutes 0-59, seconds 0-61, each one or two digits.  Returns seconds
into the day, or `none` when strptime raises `ValueError`. -/
def parseHMS (s : String) : Option ℤ :=
  match splitColon s.data with
  | [h, m, sec] =>
    if twoDigits h && twoDigits m && twoDigits sec then
      let hv := digitsVal h
      let mv := digitsVal m
      let sv := digitsVal sec
      if hv ≤ 23 && mv ≤ 59 && sv ≤ 61 then
        some ((3600 * hv + 60 * mv + sv : ℕ) : ℤ)
      else none
    else none
  | _ => none

/-- One iteration of the stop-time loop of `create_trip_update`
(lines 389-413).  `dayEpoch` is the Unix timestamp of today's midnight,
so combining today's date with a schedule time of `s` seconds into the
day gives `dayEpoch + s`; `nowInt` is the `int(time.time())` fallback
used when the combination fails to parse.  A falsy (empty) time string
leaves the corresponding field unset. -/
def mkStopTimeUpdate (nowInt dayEpoch : ℤ) (s : TripStop) : StopTimeUpdate :=
  { stop_sequence := s.stop_sequence
    stop_id := s.stop_id
    arrival :=
      if pyTruthy s.arrival_time then
        some (match parseHMS (pyStr s.arrival_time) with
              | some secs => dayEpoch + secs
              | none => nowInt)
      else none
    departure :=
      if pyTruthy s.departure_time then
        some (match parseHMS (pyStr s.departure_time) with
              | some secs => dayEpoch + secs
              | none => nowInt)
      else none
    schedule_relationship := 0 }

/-- `create_trip_update` (lines 352-415).  `nowHMS` is the current time
as HH:MM:SS and `today` the current date as YYYYMMDD.  `none` models the
uncaught `ValueError` of `int(gps_data.get('direction_id', 0))` at
line 371. -/
def create_trip_update (gps : GpsData) (gtfs : Processed) (nowInt : ℤ)
    (nowHMS : String) (today : String) (dayEpoch : ℤ) : Option FeedMessage :=
  match pyIntOptField gps.direction_id with
  | .error _ => none
  | .ok dir =>
    let tid := pyStrOpt gps.trip_id
    some
      { header := { gtfs_realtime_version := "2.0", timestamp := nowInt }
        entity := [{ id := "trip_" ++ tid
                     payload := .trip_update
                       { trip_trip_id := tid
                         trip_route_id := pyStrOpt gps.route_id
                         trip_direction_id := dir
                         trip_start_time := nowHMS
                         trip_start_date := today
                         vehicle_id := pyStrOpt gps.device_id
                         vehicle_label := pyStrOpt (gps.label <|> gps.device_id)
                         timestamp := nowInt
                         stop_time_update :=
                           (get_trip_stops tid gtfs).foldl
                             (fun acc s => acc ++ [mkStopTimeUpdate nowInt dayEpoch s])
                             [] } }] }

/-- `create_service_alert` (lines 417-470).  `freshId` models the
`uuid.uuid4()` default for a missing alert id. -/
def create_service_alert (alert_data : AlertInput) (freshId : String)
    (nowInt : ℤ) : FeedMessage :=
  let alert_id := alert_data.id.getD freshId
  { header := { gtfs_realtime_version := "2.0", timestamp := nowInt }
    entity := [{ id := "alert_" ++ alert_id
                 payload := .alert
                   { header_text := [alert_data.header.getD "Service Alert"]
                     description_text :=
                       [alert_data.description.getD "No details available"]
                     active_period := [(nowInt, nowInt + alert_data.duration.getD 3600)]
                     informed_entity :=
                       match alert_data.affected_entities with
                       | some l => l
                       | none => ["all_routes"]
                     cause := alert_data.cause.getD 1
                     effect := alert_data.effect.getD 8 } }] }

/-- One route's configuration in config.json. -/
structure RouteCfg where
  trips : List TripConfig

/-- One vehicle's configuration (`get_vehicle_info`). -/
structure VehicleInfo where
  device_id : String
  label : String
  routes : StrMap RouteCfg

/-- A message handed to `save_protobuf`, tagged with its kind. -/
inductive SavedMsg where
  | vehicle_position (m : FeedMessage)
  | trip_update (m : FeedMessage)
  | service_alert (m : FeedMessage)

/-- Whether a saved message is a service alert. -/
def SavedMsg.isAlert : SavedMsg → Bool
  | .service_alert _ => true
  | _ => false

/-- One synthesis cycle: `process_data` (lines 487-574) from the moment
the two inputs are fetched.  `gtfsRes` is the `fetch_gtfs_static` result
(`error` = it returned `None`), `vehicle_info` the config entry resolved
for the fix's device (`none` = a falsy entry), `freshIds` supplies the
per-alert `uuid4` values, and `tbl` the previous-position table at entry.
Returns the messages handed to `save_protobuf` in order and the table
after the cycle; an exception escaping a builder aborts the remainder of
the cycle. -/
noncomputable def process_data (gps : GpsData) (gtfsRes : Except Unit Processed)
    (vehicle_info : Option VehicleInfo) (nowHMS : String) (nowInt : ℤ)
    (nowQ : ℚ) (today : String) (dayEpoch : ℤ) (freshIds : ℕ → String)
    (tbl : PrevTable) : List SavedMsg × PrevTable :=
  match gtfsRes with
  | .error _ => ([], tbl)
  | .ok gtfs =>
    match vehicle_info with
    | none => ([], tbl)
    | some vi =>
      let route_id := pyStrOpt gps.route_id
      match vi.routes route_id with
      | none => ([], tbl)
      | some route_info =>
        match selectTrip route_info.trips nowHMS with
        | none => ([], tbl)
        | some current_trip =>
          let gps' : GpsData :=
            { gps with
              device_id := some (.txt vi.device_id none none)
              label := some (.txt vi.label none none)
              trip_id := some (.txt current_trip.trip_id none none)
              route_id := some (.txt route_id none none)
              direction_id := some (.num (current_trip.direction_id : ℚ)) }
          match create_vehicle_position gps' tbl nowInt nowQ today with
          | none => ([], tbl)
          | some (vp, tbl') =>
            match create_trip_update gps' gtfs nowInt nowHMS today dayEpoch with
            | none => ([SavedMsg.vehicle_position vp], tbl')
            | some tu =>
              (SavedMsg.vehicle_position vp :: SavedMsg.trip_update tu ::
                 (match gtfs.alerts with
                  | none => []
                  | some alerts =>
                      alerts.enum.map fun p =>
                        SavedMsg.service_alert
                          (create_service_alert p.2 (freshIds p.1) nowInt)),
               tbl')

/-- The join step the specification describes for `getTripStops`: a
sequence entry joined to its stop record, `none` when the stop is
unknown. -/
def joinStop (stops : StrMap StopRec) (e : SeqEntry) : Option TripStop :=
  (stops e.stop_id).map fun st =>
    { stop_sequence := e.stop_sequence
      stop_id := e.stop_id
      stop_name := st.stop_name
      arrival_time := e.arrival_time
      departure_time := e.departure_time }

/-- Whether a feed entity carries a vehicle-position payload. -/
def isVehicleEntity : FeedEntity → Bool
  | { payload := .vehicle _, .. } => true
  | _ => false

/-- Whether a feed entity carries a trip-update payload. -/
def isTripUpdateEntity : FeedEntity → Bool
  | { payload := .trip_update _, .. } => true
  | _ => false

/-- Whether a feed entity carries an alert payload. -/
def isAlertEntity : FeedEntity → Bool
  | { payload := .alert _, .. } => true
  | _ => false

/-- The structural invariant the specification states for every feed
message: header version `"2.0"`, header timestamp set to the build time,
and exactly one entity of the given kind. -/
def headerOneEntity (nowInt : ℤ) (kind : FeedEntity → Bool) (m : FeedMessage) : Prop :=
  m.header.gtfs_realtime_version = "2.0" ∧ m.header.timestamp = nowInt
    ∧ m.entity.length = 1 ∧ m.entity.all kind = true

/-- The stop-time updates carried by a message's first entity (empty for
any other payload). -/
def stuListOf (m : FeedMessage) : List StopTimeUpdate :=
  match m.entity.head? with
  | some e =>
    match e.payload with
    | .trip_update t => t.stop_time_update
    | _ => []
  | none => []

/-- Extract the success value of an `Except`, with a default. -/
def okOr {α : Type} (e : Except Unit α) (d : α) : α :=
  match e with | .ok a => a | .error _ => d

/-- A small schedule whose stop_times rows arrive with sequence 2 before
sequence 1. -/
def exGtfs : RawGtfs :=
  { routes := none
    trips := none
    stops := some
      [[("stop_id", .txt "A" none none), ("stop_name", .txt "Alpha" none none)],
       [("stop_id", .txt "B" none none), ("stop_name", .txt "Beta" none none)]]
    stop_times := some
      [[("trip_id", .txt "t1" none none), ("stop_id", .txt "B" none none),
        ("stop_sequence", .num 2)],
       [("trip_id", .txt "t1" none none), ("stop_id", .txt "A" none none),
        ("stop_sequence", .num 1)]]
    calendar := none }

/-- The index built from `exGtfs`. -/
def exProcessed : Processed :=
  okOr (process_gtfs_data exGtfs)
    (Processed.mk mapEmpty mapEmpty mapEmpty mapEmpty none)

/-- A schedule with two stop_times rows of one trip sharing sequence
number 1. -/
def dupGtfs : RawGtfs :=
  { routes := none
    trips := none
    stops := none
    stop_times := some
      [[("trip_id", .txt "t1" none none), ("stop_id", .txt "A" none none),
        ("stop_sequence", .num 1)],
       [("trip_id", .txt "t1" none none), ("stop_id", .txt "B" none none),
        ("stop_sequence", .num 1)]]
    calendar := none }

/-- An index holding one trip with one stop whose arrival_time is the
empty string and whose departure_time is 08:00:00. -/
def exUpdGtfs : Processed :=
  Processed.mk mapEmpty mapEmpty
    (mapSet mapEmpty "A" (StopRec.mk "A" (GVal.txt "Alpha" none none) 0 0 emptyG emptyG))
    (mapSet mapEmpty "t1"
      [SeqEntry.mk 1 "A" (GVal.txt "" none none) (GVal.txt "08:00:00" none none)
        emptyG emptyG emptyG])
    none

/-- A resolved GPS object naming the trip of `exUpdGtfs`. -/
def exUpdGps : GpsData :=
  GpsData.mk (some (.txt "d" none none)) none (some (.txt "t1" none none))
    (some (.txt "r" none none)) (some (.num 0)) none none none

end AVLSystem

open AVLSystem

theorem selectTripLoop_eq (now : String) :
    ∀ (trips : List TripConfig) (acc : Option TripConfig),
      selectTripLoop now trips acc =
        match (trips.takeWhile fun t => pyStrLe t.start_time now).getLast? with
        | some t => some t
        | none => acc := by
  intro trips
  induction trips with
  | nil => intro acc; rfl
  | cons t ts ih =>
    intro acc
    by_cases h : pyStrLe t.start_time now
    · rw [selectTripLoop, if_pos h, ih (some t), List.takeWhile_cons, if_pos h,
        List.getLast?_cons]
      cases h' : (ts.takeWhile fun t => pyStrLe t.start_time now).getLast? <;> simp [h']
    · rw [selectTripLoop, if_neg h, List.takeWhile_cons, if_neg h]
      rfl

/-- C1: trip selection scans the configured trips in stored order,
keeping the last trip whose start_time compares at most the current time
string and stopping at the first trip whose start_time compares greater;
when no scanned trip satisfies the predicate the first trip is the
fallback and the empty list yields `none`.  Includes the 10:00:00 and
05:00:00 examples over start_times 06:00:00, 09:00:00, 14:00:00. -/
theorem trip_selection_spec :
    (∀ (trips : List TripConfig) (now : String),
        selectTrip trips now = tripSelectorSpec trips now)
    ∧ (∀ now, selectTrip [] now = none)
    ∧ selectTrip [⟨"trip06", 0, "06:00:00"⟩, ⟨"trip09", 1, "09:00:00"⟩,
        ⟨"trip14", 0, "14:00:00"⟩] "10:00:00" = some ⟨"trip09", 1, "09:00:00"⟩
    ∧ selectTrip [⟨"trip06", 0, "06:00:00"⟩, ⟨"trip09", 1, "09:00:00"⟩,
        ⟨"trip14", 0, "14:00:00"⟩] "05:00:00" = some ⟨"trip06", 0, "06:00:00"⟩ := by
  refine ⟨fun trips now => ?_, fun now => rfl, by decide, by decide⟩
  rw [selectTrip, tripSelectorSpec, selectTripLoop_eq now trips none]
  cases h' : (trips.takeWhile fun t => pyStrLe t.start_time now).getLast? <;> simp

theorem get_trip_stops_fold (g : Processed) :
    ∀ (l : List SeqEntry) (acc : List TripStop),
      l.foldl (fun stops e =>
        match g.stops e.stop_id with
        | some st => stops ++
            [{ stop_sequence := e.stop_sequence
               stop_id := e.stop_id
               stop_name := st.stop_name
               arrival_time := e.arrival_time
               departure_time := e.departure_time }]
        | none => stops) acc = acc ++ l.filterMap (joinStop g.stops) := by
  intro l
  induction l with
  | nil => intro acc; simp
  | cons e l ih =>
    intro acc
    rw [List.foldl_cons, List.filterMap_cons]
    cases h : g.stops e.stop_id with
    | none => simp only [h, joinStop, Option.map_none']; rw [ih]
    | some st => simp only [h, joinStop, Option.map_some']; rw [ih]; simp

/-- C9: `get_trip_stops` returns the in-order join of the trip's
sequence entries with the stop records, and the empty list, not an
error, for a trip_id unknown to the index. -/
theorem get_trip_stops_contract :
    (∀ (g : Processed) (tid : String),
        g.stop_sequences tid = none → get_trip_stops tid g = [])
    ∧ (∀ (g : Processed) (tid : String) (l : List SeqEntry),
        g.stop_sequences tid = some l →
        get_trip_stops tid g = l.filterMap (joinStop g.stops)) := by
  constructor
  · intro g tid h; rw [get_trip_stops, h]
  · intro g tid l h; rw [get_trip_stops, h]; dsimp only; rw [get_trip_stops_fold]; rfl

theorem get_trip_stops_contract_witness :
    ((Processed.mk mapEmpty mapEmpty mapEmpty mapEmpty none).stop_sequences "t" = none
      ∧ get_trip_stops "t" (Processed.mk mapEmpty mapEmpty mapEmpty mapEmpty none) = [])
    ∧ ((Processed.mk mapEmpty mapEmpty
          (mapSet mapEmpty "A" (StopRec.mk "A" emptyG 0 0 emptyG emptyG))
          (mapSet mapEmpty "t" [SeqEntry.mk 1 "A" emptyG emptyG emptyG emptyG emptyG])
          none).stop_sequences "t" = some [SeqEntry.mk 1 "A" emptyG emptyG emptyG emptyG emptyG]
      ∧ get_trip_stops "t" (Processed.mk mapEmpty mapEmpty
          (mapSet mapEmpty "A" (StopRec.mk "A" emptyG 0 0 emptyG emptyG))
          (mapSet mapEmpty "t" [SeqEntry.mk 1 "A" emptyG emptyG emptyG emptyG emptyG])
          none)
        = [SeqEntry.mk 1 "A" emptyG emptyG emptyG emptyG emptyG].filterMap
            (joinStop (mapSet mapEmpty "A" (StopRec.mk "A" emptyG 0 0 emptyG emptyG)))) :=
  ⟨⟨rfl, get_trip_stops_contract.1 _ "t" rfl⟩,
   ⟨by decide, get_trip_stops_contract.2 _ "t" _ (by decide)⟩⟩

/-- C7: every feed message produced by any of the three builders has
header version "2.0", a header timestamp set to the build time, and
exactly one entity of the corresponding kind. -/
theorem feed_message_invariant :
    (∀ (gps : GpsData) (tbl : PrevTable) (nowInt : ℤ) (nowQ : ℚ) (today : String),
        (create_vehicle_position gps tbl nowInt nowQ today).elim True
          fun r => headerOneEntity nowInt isVehicleEntity r.1)
    ∧ (∀ (gps : GpsData) (gtfs : Processed) (nowInt : ℤ) (nowHMS today : String)
          (dayEpoch : ℤ),
        (create_trip_update gps gtfs nowInt nowHMS today dayEpoch).elim True
          fun m => headerOneEntity nowInt isTripUpdateEntity m)
    ∧ (∀ (a : AlertInput) (freshId : String) (nowInt : ℤ),
        headerOneEntity nowInt isAlertEntity (create_service_alert a freshId nowInt)) := by
  refine ⟨fun gps tbl nowInt nowQ today => ?_, fun gps gtfs nowInt nowHMS today dayEpoch => ?_,
    fun a freshId nowInt => ?_⟩
  · cases h : pyIntOptField gps.direction_id with
    | error e => simp [create_vehicle_position, h]
    | ok dir => simp [create_vehicle_position, h, headerOneEntity, isVehicleEntity, List.all]
  · cases h : pyIntOptField gps.direction_id with
    | error e => simp [create_trip_update, h]
    | ok dir => simp [create_trip_update, h, headerOneEntity, isTripUpdateEntity, List.all]
  · exact ⟨rfl, rfl, rfl, rfl⟩

/-- C8: a cycle whose telemetry route_id is not among the vehicle's
configured routes, or whose matched route has an empty trip list,
aborts at context resolution: no message is built or handed to
persistence and the previous-position table is returned unchanged. -/
theorem abort_on_unresolvable_context :
    (∀ (gps : GpsData) (gtfs : Processed) (vi : VehicleInfo) (nowHMS : String)
        (nowInt : ℤ) (nowQ : ℚ) (today : String) (dayEpoch : ℤ) (freshIds : ℕ → String)
        (tbl : PrevTable),
        vi.routes (pyStrOpt gps.route_id) = none →
        process_data gps (.ok gtfs) (some vi) nowHMS nowInt nowQ today dayEpoch
          freshIds tbl = ([], tbl))
    ∧ (∀ (gps : GpsData) (gtfs : Processed) (vi : VehicleInfo) (rc : RouteCfg)
        (nowHMS : String) (nowInt : ℤ) (nowQ : ℚ) (today : String) (dayEpoch : ℤ)
        (freshIds : ℕ → String) (tbl : PrevTable),
        vi.routes (pyStrOpt gps.route_id) = some rc → rc.trips = [] →
        process_data gps (.ok gtfs) (some vi) nowHMS nowInt nowQ today dayEpoch
          freshIds tbl = ([], tbl)) := by
  constructor
  · intro gps gtfs vi nowHMS nowInt nowQ today dayEpoch freshIds tbl h
    rw [process_data]
    dsimp only
    rw [h]
  · intro gps gtfs vi rc nowHMS nowInt nowQ today dayEpoch freshIds tbl h he
    rw [process_data]
    dsimp only
    rw [h]
    dsimp only
    rw [he]
    rfl

theorem abort_on_unresolvable_context_witness :
    ((VehicleInfo.mk "d" "l" mapEmpty).routes
        (pyStrOpt (GpsData.mk none none none none none none none none).route_id) = none
      ∧ process_data (GpsData.mk none none none none none none none none)
          (.ok (Processed.mk mapEmpty mapEmpty mapEmpty mapEmpty none))
          (some (VehicleInfo.mk "d" "l" mapEmpty)) "12:00:00" 0 0 "20260101" 0
          (fun _ => "u") mapEmpty = ([], mapEmpty))
    ∧ ((VehicleInfo.mk "d" "l" (mapSet mapEmpty "None" (RouteCfg.mk []))).routes
        (pyStrOpt (GpsData.mk none none none none none none none none).route_id)
          = some (RouteCfg.mk [])
      ∧ process_data (GpsData.mk none none none none none none none none)
          (.ok (Processed.mk mapEmpty mapEmpty mapEmpty mapEmpty none))
          (some (VehicleInfo.mk "d" "l" (mapSet mapEmpty "None" (RouteCfg.mk []))))
          "12:00:00" 0 0 "20260101" 0 (fun _ => "u") mapEmpty = ([], mapEmpty)) :=
  ⟨⟨rfl, abort_on_unresolvable_context.1 _ _ _ _ _ _ _ _ _ _ rfl⟩,
   ⟨rfl, abort_on_unresolvable_context.2 _ _ _ _ _ _ _ _ _ _ _ rfl rfl⟩⟩

theorem process_gtfs_data_ok_iff (g : RawGtfs) (p : Processed) :
    process_gtfs_data g = .ok p ↔
      ∃ trips stops seqs,
        processTrips g.trips = .ok trips ∧ processStops g.stops = .ok stops ∧
        processStopTimes g.stop_times = .ok seqs ∧
        p = { routes := processRoutes g.routes
              trips := trips
              stops := stops
              stop_sequences := fun tid => (seqs tid).map sortEntries
              alerts := none } := by
  rw [process_gtfs_data]
  cases ht : processTrips g.trips <;>
    cases hs : processStops g.stops <;>
      cases hq : processStopTimes g.stop_times <;>
        simp [bind, Except.bind, pure, Except.pure, eq_comm]

/-- C10: the processed schedule never carries an alerts key, so a cycle
running on the output of `process_gtfs_data` never builds or persists a
service alert. -/
theorem no_service_alert_emitted :
    (∀ g : RawGtfs, (process_gtfs_data g).toOption.all (fun p => p.alerts.isNone) = true)
    ∧ (∀ (g : RawGtfs) (gps : GpsData) (vi : Option VehicleInfo) (nowHMS : String)
        (nowInt : ℤ) (nowQ : ℚ) (today : String) (dayEpoch : ℤ) (freshIds : ℕ → String)
        (tbl : PrevTable),
        ((process_data gps (process_gtfs_data g) vi nowHMS nowInt nowQ today dayEpoch
            freshIds tbl).1.all fun m => !(SavedMsg.isAlert m)) = true) := by
  have key : ∀ (g : RawGtfs) (p : Processed), process_gtfs_data g = .ok p →
      p.alerts = none := by
    intro g p h
    obtain ⟨trips, stops, seqs, _, _, _, hp⟩ := (process_gtfs_data_ok_iff g p).mp h
    rw [hp]
  constructor
  · intro g
    cases h : process_gtfs_data g with
    | error e => rfl
    | ok p => simp [Except.toOption, key g p h]
  · intro g gps vi nowHMS nowInt nowQ today dayEpoch freshIds tbl
    cases h : process_gtfs_data g with
    | error e => rfl
    | ok p =>
      rw [process_data.eq_def]
      dsimp only
      cases vi with
      | none => rfl
      | some v =>
        dsimp only
        cases hr : v.routes (pyStrOpt gps.route_id) with
        | none => rfl
        | some route_info =>
          dsimp only
          cases hsel : selectTrip route_info.trips nowHMS with
          | none => rfl
          | some current_trip =>
            dsimp only
            cases hvp : create_vehicle_position
                { gps with
                  device_id := some (.txt v.device_id none none)
                  label := some (.txt v.label none none)
                  trip_id := some (.txt current_trip.trip_id none none)
                  route_id := some (.txt (pyStrOpt gps.route_id) none none)
                  direction_id := some (.num (current_trip.direction_id : ℚ)) }
                tbl nowInt nowQ today with
            | none => rfl
            | some r =>
              obtain ⟨vp, tbl2⟩ := r
              dsimp only
              cases htu : create_trip_update
                  { gps with
                    device_id := some (.txt v.device_id none none)
                    label := some (.txt v.label none none)
                    trip_id := some (.txt current_trip.trip_id none none)
                    route_id := some (.txt (pyStrOpt gps.route_id) none none)
                    direction_id := some (.num (current_trip.direction_id : ℚ)) }
                  p nowInt nowHMS today dayEpoch with
              | none => rfl
              | some tu =>
                dsimp only
                rw [key g p h]
                rfl

/-- C4 (amended): every stored stop sequence is sorted non-decreasing by
stop_sequence regardless of row insertion order, strictly so when the
trip's sequence numbers are pairwise distinct; rows inserted with
sequence 2 before sequence 1 come back from `get_trip_stops` in the
order 1 then 2.  With duplicate sequence numbers the order is only
non-strict. -/
theorem stop_order_amended :
    (∀ (g : RawGtfs) (p : Processed) (tid : String) (l : List SeqEntry),
        process_gtfs_data g = .ok p → p.stop_sequences tid = some l →
        List.Pairwise seqLe l)
    ∧ (∀ (g : RawGtfs) (p : Processed) (tid : String) (l : List SeqEntry),
        process_gtfs_data g = .ok p → p.stop_sequences tid = some l →
        (l.map SeqEntry.stop_sequence).Nodup →
        List.Pairwise (fun a b : SeqEntry => a.stop_sequence < b.stop_sequence) l)
    ∧ ((process_gtfs_data exGtfs).map (fun p => (get_trip_stops "t1" p).map
          fun s => (s.stop_sequence, s.stop_id)) = .ok [(1, "A"), (2, "B")]) := by
  have sorted : ∀ (g : RawGtfs) (p : Processed) (tid : String) (l : List SeqEntry),
      process_gtfs_data g = .ok p → p.stop_sequences tid = some l →
      List.Pairwise seqLe l := by
    intro g p tid l h hl
    obtain ⟨trips, stops, seqs, _, _, _, hp⟩ := (process_gtfs_data_ok_iff g p).mp h
    subst hp
    simp only [Option.map_eq_some'] at hl
    obtain ⟨l0, _, rfl⟩ := hl
    exact List.sorted_insertionSort seqLe l0
  refine ⟨sorted, ?_, by rfl⟩
  intro g p tid l h hl hnd
  have h1 := sorted g p tid l h hl
  have h2 : List.Pairwise (fun a b : SeqEntry => a.stop_sequence ≠ b.stop_sequence) l :=
    List.pairwise_map.mp hnd
  exact (h1.and h2).imp fun hab => lt_of_le_of_ne hab.1 hab.2

theorem stop_order_amended_witness :
    process_gtfs_data exGtfs = .ok exProcessed
    ∧ exProcessed.stop_sequences "t1" =
        some [SeqEntry.mk 1 "A" emptyG emptyG emptyG emptyG emptyG,
              SeqEntry.mk 2 "B" emptyG emptyG emptyG emptyG emptyG]
    ∧ List.Pairwise seqLe
        [SeqEntry.mk 1 "A" emptyG emptyG emptyG emptyG emptyG,
         SeqEntry.mk 2 "B" emptyG emptyG emptyG emptyG emptyG] :=
  ⟨rfl, by decide, stop_order_amended.1 exGtfs exProcessed "t1" _ rfl (by decide)⟩

/-- C4 counterexample: with two rows of one trip sharing sequence
number 1 the stored sequence has key list [1, 1], which is not strictly
ascending, so the claimed strict ordering fails on the code. -/
theorem stop_order_strict_counterexample :
    ((process_gtfs_data dupGtfs).map fun p =>
        ((p.stop_sequences "t1").getD []).map SeqEntry.stop_sequence) = .ok [1, 1]
    ∧ ((process_gtfs_data dupGtfs).map fun p => (p.stop_sequences "t1").isSome) = .ok true
    ∧ ¬ List.Pairwise (fun a b : ℤ => a < b) [1, 1] := by
  refine ⟨by rfl, by rfl, ?_⟩
  intro h
  exact absurd (List.rel_of_pairwise_cons h (List.mem_singleton.mpr rfl)) (lt_irrefl 1)

/-- C5 (amended): index construction tolerates any absent table (the
corresponding sub-map is empty) and defaults a missing numeric field to
0 or 0.0; but a numeric field value that is present and unparsable
raises, failing the whole build, instead of being defaulted. -/
theorem gtfs_tolerance_amended :
    (process_gtfs_data (RawGtfs.mk none none none none none) =
        .ok (Processed.mk mapEmpty mapEmpty mapEmpty (fun _ => none) none))
    ∧ (∀ (g : RawGtfs) (p : Processed), process_gtfs_data g = .ok p →
        (g.routes = none → p.routes = mapEmpty)
        ∧ (g.trips = none → p.trips = mapEmpty)
        ∧ (g.stops = none → p.stops = mapEmpty)
        ∧ (g.stop_times = none → ∀ tid, p.stop_sequences tid = none))
    ∧ (∀ row : RawRow, List.lookup "direction_id" row = none →
        pyIntField row "direction_id" = .ok 0)
    ∧ (∀ row : RawRow, List.lookup "stop_lat" row = none →
        pyFloatField row "stop_lat" = .ok 0)
    ∧ (∀ (row : RawRow) (s : String) (ai : Option ℤ),
        List.lookup "stop_lat" row = some (.txt s ai none) →
        pyFloatField row "stop_lat" = .error ()) := by
  refine ⟨rfl, ?_, ?_, ?_, ?_⟩
  · intro g p h
    obtain ⟨trips, stops, seqs, htr, hst, hsq, hp⟩ := (process_gtfs_data_ok_iff g p).mp h
    subst hp
    refine ⟨?_, ?_, ?_, ?_⟩
    · intro hg; rw [hg] at *; rfl
    · intro hg; rw [hg] at htr
      exact (Except.ok.inj htr).symm
    · intro hg; rw [hg] at hst
      exact (Except.ok.inj hst).symm
    · intro hg tid; rw [hg] at hsq
      rw [← Except.ok.inj hsq]
      rfl
  · intro row h; rw [pyIntField, h]
  · intro row h; rw [pyFloatField, h]
  · intro row s ai h; rw [pyFloatField, h]; rfl

theorem gtfs_tolerance_amended_witness :
    (process_gtfs_data (RawGtfs.mk none none none none none) =
        .ok (Processed.mk mapEmpty mapEmpty mapEmpty (fun _ => none) none)
      ∧ (Processed.mk mapEmpty mapEmpty mapEmpty (fun _ => none) none).stops = mapEmpty)
    ∧ (List.lookup "direction_id" ([] : RawRow) = none
      ∧ pyIntField ([] : RawRow) "direction_id" = .ok 0)
    ∧ (List.lookup "stop_lat" [("stop_lat", GVal.txt "abc" none none)] =
          some (GVal.txt "abc" none none)
      ∧ pyFloatField [("stop_lat", GVal.txt "abc" none none)] "stop_lat" = .error ()) :=
  ⟨⟨rfl, ((gtfs_tolerance_amended.2.1 (RawGtfs.mk none none none none none)
        (Processed.mk mapEmpty mapEmpty mapEmpty (fun _ => none) none) rfl).2.2.1 rfl)⟩,
   ⟨rfl, gtfs_tolerance_amended.2.2.1 [] rfl⟩,
   ⟨rfl, gtfs_tolerance_amended.2.2.2.2 [("stop_lat", GVal.txt "abc" none none)]
      "abc" none rfl⟩⟩

/-- C5 counterexample: a stops row whose stop_lat value is the
unparsable string "abc" makes index construction raise (the build
returns an error, caught upstream as a `None` result), contradicting
the claim that every unparsable numeric field is replaced by a
default and that construction never fails on a bad row. -/
theorem gtfs_tolerance_counterexample :
    process_gtfs_data
      { routes := none
        trips := none
        stops := some [[("stop_id", .txt "s1" none none),
                        ("stop_lat", .txt "abc" none none)]]
        stop_times := none
        calendar := none } = .error () := rfl

theorem stu_fold_eq_map (nowInt dayEpoch : ℤ) :
    ∀ (l : List TripStop) (acc : List StopTimeUpdate),
      l.foldl (fun acc s => acc ++ [mkStopTimeUpdate nowInt dayEpoch s]) acc
        = acc ++ l.map (mkStopTimeUpdate nowInt dayEpoch) := by
  intro l
  induction l with
  | nil => intro acc; simp
  | cons s l ih => intro acc; rw [List.foldl_cons, ih, List.map_cons]; simp

/-- C6 (amended): the built trip update carries exactly one stop-time
update per joined stop, in order, with the stop's sequence and id and
schedule_relationship SCHEDULED (0); a truthy time string that parses is
combined with today's date, a truthy time string that fails to parse
falls back to the current time, and a falsy (empty) time string leaves
the corresponding arrival or departure field unset rather than set to
the current time. -/
theorem trip_update_stoptimes_amended :
    (∀ (gps : GpsData) (gtfs : Processed) (nowInt : ℤ) (nowHMS today : String)
        (dayEpoch : ℤ),
        (create_trip_update gps gtfs nowInt nowHMS today dayEpoch).elim True
          fun m => stuListOf m =
            (get_trip_stops (pyStrOpt gps.trip_id) gtfs).map
              (mkStopTimeUpdate nowInt dayEpoch))
    ∧ (∀ (nowInt dayEpoch : ℤ) (s : TripStop),
        (mkStopTimeUpdate nowInt dayEpoch s).stop_sequence = s.stop_sequence
        ∧ (mkStopTimeUpdate nowInt dayEpoch s).stop_id = s.stop_id
        ∧ (mkStopTimeUpdate nowInt dayEpoch s).schedule_relationship = 0
        ∧ (∀ secs : ℤ, pyTruthy s.arrival_time = true →
            parseHMS (pyStr s.arrival_time) = some secs →
            (mkStopTimeUpdate nowInt dayEpoch s).arrival = some (dayEpoch + secs))
        ∧ (pyTruthy s.arrival_time = true → parseHMS (pyStr s.arrival_time) = none →
            (mkStopTimeUpdate nowInt dayEpoch s).arrival = some nowInt)
        ∧ (pyTruthy s.arrival_time = false →
            (mkStopTimeUpdate nowInt dayEpoch s).arrival = none)
        ∧ (∀ secs : ℤ, pyTruthy s.departure_time = true →
            parseHMS (pyStr s.departure_time) = some secs →
            (mkStopTimeUpdate nowInt dayEpoch s).departure = some (dayEpoch + secs))
        ∧ (pyTruthy s.departure_time = true → parseHMS (pyStr s.departure_time) = none →
            (mkStopTimeUpdate nowInt dayEpoch s).departure = some nowInt)
        ∧ (pyTruthy s.departure_time = false →
            (mkStopTimeUpdate nowInt dayEpoch s).departure = none)) := by
  constructor
  · intro gps gtfs nowInt nowHMS today dayEpoch
    cases h : pyIntOptField gps.direction_id with
    | error e => simp [create_trip_update, h]
    | ok dir =>
      simp only [create_trip_update, h, Option.elim]
      rw [stuListOf]
      dsimp only
      rw [stu_fold_eq_map]
      rfl
  · intro nowInt dayEpoch s
    refine ⟨rfl, rfl, rfl, ?_, ?_, ?_, ?_, ?_, ?_⟩
    · intro secs ht hp; rw [mkStopTimeUpdate]; dsimp only; rw [if_pos ht, hp]
    · intro ht hp; rw [mkStopTimeUpdate]; dsimp only; rw [if_pos ht, hp]
    · intro ht; rw [mkStopTimeUpdate]; dsimp only
      rw [if_neg (by simp [ht])]
    · intro secs ht hp; rw [mkStopTimeUpdate]; dsimp only; rw [if_pos ht, hp]
    · intro ht hp; rw [mkStopTimeUpdate]; dsimp only; rw [if_pos ht, hp]
    · intro ht; rw [mkStopTimeUpdate]; dsimp only
      rw [if_neg (by simp [ht])]

theorem trip_update_stoptimes_amended_witness :
    (pyTruthy (GVal.txt "07:00:00" none none) = true
      ∧ parseHMS (pyStr (GVal.txt "07:00:00" none none)) = some 25200
      ∧ (mkStopTimeUpdate 5 1000
            (TripStop.mk 1 "A" emptyG (GVal.txt "07:00:00" none none) emptyG)).arrival
          = some (1000 + 25200))
    ∧ (pyTruthy (GVal.txt "" none none) = false
      ∧ (mkStopTimeUpdate 5 1000
            (TripStop.mk 1 "A" emptyG emptyG (GVal.txt "" none none))).departure = none) :=
  ⟨⟨by decide, by decide,
     (trip_update_stoptimes_amended.2 5 1000 _).2.2.2.1 25200 (by decide) (by decide)⟩,
   ⟨by decide,
     (trip_update_stoptimes_amended.2 5 1000 _).2.2.2.2.2.2.2.2 (by decide)⟩⟩

/-- C6 counterexample: a stop whose arrival_time is the empty string
gets no arrival field at all in the built trip update, although the
empty string fails to parse and the claim then requires the arrival
timestamp to be the current time. -/
theorem trip_update_stoptimes_counterexample :
    (create_trip_update exUpdGps exUpdGtfs 100 "09:00:00" "20260101" 1000000).elim False
      (fun m => stuListOf m = [StopTimeUpdate.mk 1 "A" none (some 1028800) 0])
    ∧ parseHMS "" = none
    ∧ (none : Option ℤ) ≠ some 100 := by
  refine ⟨?_, rfl, by decide⟩
  rfl

theorem pymod_bounds (a : ℝ) : 0 ≤ pymod a 360 ∧ pymod a 360 < 360 := by
  have h : pymod a 360 = 360 * Int.fract (a / 360) := by
    rw [pymod, Int.fract]
    field_simp
  constructor
  · rw [h]
    have := Int.fract_nonneg (a / 360)
    linarith
  · rw [h]
    have := Int.fract_lt_one (a / 360)
    nlinarith [Int.fract_nonneg (a / 360)]

theorem calculate_bearing_range (lat1 lon1 lat2 lon2 : ℝ) :
    0 ≤ calculate_bearing lat1 lon1 lat2 lon2
      ∧ calculate_bearing lat1 lon1 lat2 lon2 < 360 := by
  rw [calculate_bearing]
  exact pymod_bounds _

/-- C2 (amended): with a stored prior fix and all four coordinate
components non-zero, the emitted bearing is the great-circle
initial-bearing formula from the previous fix to the current one,
normalised into [0, 360); otherwise — no prior fix, or any coordinate
component equal to zero — the emitted bearing is the telemetry bearing
parsed as a float, defaulting to 0.0 when absent or unparsable, never a
value computed from the invalid fix. -/
theorem bearing_estimation_amended :
    (∀ (p : PrevPos) (clat clon : ℚ) (brgV : Option GVal) (t : ℚ),
        clat ≠ 0 → clon ≠ 0 → p.latitude ≠ 0 → p.longitude ≠ 0 →
        (createPositionFields (some p) (some (.num clat)) (some (.num clon)) brgV t).1.2.2
          = calculate_bearing (p.latitude : ℝ) (p.longitude : ℝ) (clat : ℝ) (clon : ℝ))
    ∧ (∀ lat1 lon1 lat2 lon2 : ℝ,
        0 ≤ calculate_bearing lat1 lon1 lat2 lon2
          ∧ calculate_bearing lat1 lon1 lat2 lon2 < 360)
    ∧ (∀ (clat clon : ℚ) (brgV : Option GVal) (t : ℚ),
        (createPositionFields none (some (.num clat)) (some (.num clon)) brgV t).1.2.2
          = (bearingFallback brgV : ℝ))
    ∧ (∀ (p : PrevPos) (clat clon : ℚ) (brgV : Option GVal) (t : ℚ),
        clat = 0 ∨ clon = 0 ∨ p.latitude = 0 ∨ p.longitude = 0 →
        (createPositionFields (some p) (some (.num clat)) (some (.num clon)) brgV t).1.2.2
          = (bearingFallback brgV : ℝ)) := by
  refine ⟨?_, calculate_bearing_range, ?_, ?_⟩
  · intro p clat clon brgV t h1 h2 h3 h4
    rw [createPositionFields]
    dsimp only [pyFloatOptField, pyFloat, Except.toOption]
    rw [if_pos ⟨h1, h2, h3, h4⟩]
  · intro clat clon brgV t
    rfl
  · intro p clat clon brgV t h
    rw [createPositionFields]
    dsimp only [pyFloatOptField, pyFloat, Except.toOption]
    rw [if_neg (by tauto)]
    cases hb : brgV with
    | none => rfl
    | some g =>
      cases g with
      | num q => rfl
      | txt s ai af =>
        cases af with
        | none => simp [bearingFallback, pyFloat, Except.toOption]
        | some q => simp [bearingFallback, pyFloat, Except.toOption]

theorem atan2_zero_zero : atan2 0 0 = 0 := by
  rw [atan2, if_neg (lt_irrefl (0:ℝ)), if_neg (lt_irrefl (0:ℝ)),
    if_neg (lt_irrefl (0:ℝ)), if_neg (lt_irrefl (0:ℝ))]

theorem pymod_360_360 : pymod 360 360 = 0 := by
  rw [pymod]
  norm_num

theorem bearing_zero_eval : calculate_bearing 0 5 0 5 = 0 := by
  have h1 : radians 0 = 0 := by rw [radians, zero_mul]
  have h2 : radians 5 - radians 5 = 0 := sub_self _
  rw [calculate_bearing]
  simp only [h1, h2, Real.sin_zero, Real.cos_zero, zero_mul, mul_zero, mul_one,
    one_mul, sub_zero, zero_sub, neg_zero]
  rw [atan2_zero_zero, degreesOf, zero_mul, zero_add, pymod_360_360]

/-- C2 counterexample: previous fix (0, 5) and current fix (0, 5) are
both different from the sentinel (0, 0), so the claim requires the
formula bearing (which evaluates to 0 here), yet the code takes the
fallback branch because a single coordinate component is zero and emits
the telemetry bearing 100. -/
theorem bearing_claim_counterexample :
    (createPositionFields (some (PrevPos.mk 0 5 0)) (some (.num 0)) (some (.num 5))
        (some (.num 100)) 7).1.2.2 = 100
    ∧ calculate_bearing ((0:ℚ) : ℝ) ((5:ℚ) : ℝ) ((0:ℚ) : ℝ) ((5:ℚ) : ℝ) = 0
    ∧ ((0:ℚ), (5:ℚ)) ≠ ((0:ℚ), (0:ℚ))
    ∧ (100:ℝ) ≠ 0 := by
  refine ⟨?_, ?_, by decide, by norm_num⟩
  · rw [createPositionFields]
    dsimp only [pyFloatOptField, pyFloat, Except.toOption]
    rw [if_neg (by simp)]
    norm_num
  · rw [show ((0:ℚ):ℝ) = 0 by norm_num, show ((5:ℚ):ℝ) = 5 by norm_num]
    exact bearing_zero_eval

theorem bearing_estimation_amended_witness :
    ((1:ℚ) ≠ 0
      ∧ (createPositionFields (some (PrevPos.mk 1 1 0)) (some (.num 1)) (some (.num 1))
            none 0).1.2.2
          = calculate_bearing ((1:ℚ) : ℝ) ((1:ℚ) : ℝ) ((1:ℚ) : ℝ) ((1:ℚ) : ℝ))
    ∧ (((0:ℚ) = 0 ∨ (1:ℚ) = 0 ∨ (PrevPos.mk 0 1 0).latitude = 0
          ∨ (PrevPos.mk 0 1 0).longitude = 0)
      ∧ (createPositionFields (some (PrevPos.mk 0 1 0)) (some (.num 0)) (some (.num 1))
            none 0).1.2.2 = (bearingFallback none : ℝ)) :=
  ⟨⟨by decide,
    bearing_estimation_amended.1 (PrevPos.mk 1 1 0) 1 1 none 0
      (by decide) (by decide) (by decide) (by decide)⟩,
   ⟨Or.inl rfl,
    bearing_estimation_amended.2.2.2 (PrevPos.mk 0 1 0) 0 1 none 0 (Or.inl rfl)⟩⟩

theorem pyFloatOptField_num (q : ℚ) : pyFloatOptField (some (.num q)) = some q := rfl

/-- C3 (amended): after every call of the position block in which no
`ValueError` escapes — in particular every call whose coordinates are
the sentinel (0, 0) with a parsable or absent bearing field — the
stored prior-fix entry for the device is exactly the call's
coordinates and timestamp; but when a field is unparsable (latitude or
longitude anywhere, or the fallback bearing read when a prior fix exists
and a coordinate component is zero) the exception skips the update and
the stored entry is unchanged.  A first call carrying the sentinel still
stores it as the baseline consulted by the second call. -/
theorem baseline_overwrite_amended :
    (∀ (prev : Option PrevPos) (clat clon : ℚ) (brgV : Option GVal) (t : ℚ),
        (pyFloatOptField brgV).isSome = true →
        (createPositionFields prev (some (.num clat)) (some (.num clon)) brgV t).2
          = some (PrevPos.mk clat clon t))
    ∧ (∀ (clat clon : ℚ) (brgV : Option GVal) (t : ℚ),
        (createPositionFields none (some (.num clat)) (some (.num clon)) brgV t).2
          = some (PrevPos.mk clat clon t))
    ∧ (∀ (p : PrevPos) (clat clon : ℚ) (brgV : Option GVal) (t : ℚ),
        clat ≠ 0 → clon ≠ 0 → p.latitude ≠ 0 → p.longitude ≠ 0 →
        (createPositionFields (some p) (some (.num clat)) (some (.num clon)) brgV t).2
          = some (PrevPos.mk clat clon t))
    ∧ (∀ (p : PrevPos) (clat clon : ℚ) (brgV : Option GVal) (t : ℚ),
        clat = 0 ∨ clon = 0 ∨ p.latitude = 0 ∨ p.longitude = 0 →
        pyFloatOptField brgV = none →
        (createPositionFields (some p) (some (.num clat)) (some (.num clon)) brgV t).2
          = some p)
    ∧ (∀ (prev : Option PrevPos) (latV lonV brgV : Option GVal) (t : ℚ),
        pyFloatOptField latV = none ∨ pyFloatOptField lonV = none →
        (createPositionFields prev latV lonV brgV t).2 = prev)
    ∧ ((createPositionFields none (some (.num 0)) (some (.num 0)) none 1).2
          = some (PrevPos.mk 0 0 1)
      ∧ (createPositionFields
            (createPositionFields none (some (.num 0)) (some (.num 0)) none 1).2
            (some (.num 2)) (some (.num 3)) (some (.num 45)) 2).1.2.2
          = ((45:ℚ) : ℝ)) := by
  refine ⟨?_, ?_, ?_, ?_, ?_, rfl, rfl⟩
  · intro prev clat clon brgV t h
    rw [createPositionFields, pyFloatOptField_num, pyFloatOptField_num]
    dsimp only
    cases prev with
    | none => rfl
    | some p =>
      dsimp only
      by_cases hc : clat ≠ 0 ∧ clon ≠ 0 ∧ p.latitude ≠ 0 ∧ p.longitude ≠ 0
      · rw [if_pos hc]
      · rw [if_neg hc]
        cases hb : pyFloatOptField brgV with
        | none => rw [hb] at h; exact absurd h (by simp)
        | some b => rfl
  · intro clat clon brgV t; rfl
  · intro p clat clon brgV t h1 h2 h3 h4
    rw [createPositionFields, pyFloatOptField_num, pyFloatOptField_num]
    dsimp only
    rw [if_pos ⟨h1, h2, h3, h4⟩]
  · intro p clat clon brgV t h hb
    rw [createPositionFields, pyFloatOptField_num, pyFloatOptField_num]
    dsimp only
    rw [if_neg (by tauto), hb]
  · intro prev latV lonV brgV t h
    rcases h with h | h
    · rw [createPositionFields, h]
    · cases hl : pyFloatOptField latV with
      | none => rw [createPositionFields, hl]
      | some v => rw [createPositionFields, hl, h]

/-- C3 counterexample: a call with sentinel coordinates whose bearing
field is the unparsable string "x" raises inside the block, so the
stored entry keeps the old fix (7, 8) with its old timestamp instead of
being overwritten with the call's coordinates and timestamp. -/
theorem baseline_overwrite_counterexample :
    (createPositionFields (some (PrevPos.mk 7 8 5)) (some (.num 0)) (some (.num 0))
        (some (.txt "x" none none)) 9).2 = some (PrevPos.mk 7 8 5)
    ∧ PrevPos.mk 7 8 5 ≠ PrevPos.mk 0 0 9 := by
  exact ⟨by decide, by decide⟩

theorem baseline_overwrite_amended_witness :
    ((pyFloatOptField (some (GVal.num 45))).isSome = true
      ∧ (createPositionFields (some (PrevPos.mk 0 0 1)) (some (.num 2)) (some (.num 3))
            (some (.num 45)) 2).2 = some (PrevPos.mk 2 3 2))
    ∧ (((0:ℚ) = 0 ∨ (0:ℚ) = 0 ∨ (PrevPos.mk 7 8 5).latitude = 0
          ∨ (PrevPos.mk 7 8 5).longitude = 0)
      ∧ pyFloatOptField (some (GVal.txt "x" none none)) = none
      ∧ (createPositionFields (some (PrevPos.mk 7 8 5)) (some (.num 0)) (some (.num 0))
            (some (.txt "x" none none)) 9).2 = some (PrevPos.mk 7 8 5)) :=
  ⟨⟨rfl, baseline_overwrite_amended.1 (some (PrevPos.mk 0 0 1)) 2 3
      (some (GVal.num 45)) 2 rfl⟩,
   ⟨Or.inl rfl, rfl,
    baseline_overwrite_amended.2.2.2.1 (PrevPos.mk 7 8 5) 0 0
      (some (GVal.txt "x" none none)) 9 (Or.inl rfl) rfl⟩⟩
